import Mathlib

/-!
Shallow embedding of the MCP project template core (tool registry, middleware
chain, base tool execution envelope, error taxonomy), translated from the
JavaScript code blocks of the repository source.  Timestamps are epoch
milliseconds modelled as integers; the JS Map objects are modelled as
insertion-ordered association lists with Map.set semantics (replace in place
when the key exists, append otherwise).
-/

/-- Lookup in an insertion-ordered association list, modelling JS Map.get. -/
def lookupAssoc {β : Type} (m : List (String × β)) (k : String) : Option β :=
  match m with
  | [] => none
  | (k₁, v₁) :: rest => if k₁ = k then some v₁ else lookupAssoc rest k

/-- Update in an insertion-ordered association list, modelling JS Map.set:
replace the binding in place when the key is present, append otherwise. -/
def setAssoc {β : Type} (m : List (String × β)) (k : String) (v : β) : List (String × β) :=
  match m with
  | [] => [(k, v)]
  | (k₁, v₁) :: rest => if k₁ = k then (k, v) :: rest else (k₁, v₁) :: setAssoc rest k v

/-- Structured details payload of an MCPError.  In the JS source this is an
arbitrary object; the constructor only ever reads the field named retryable
from it, so the model keeps that field as an optional boolean (absent when the
JS object has no such property) next to an opaque list of payload strings. -/
structure Details where
  retryableField : Option Bool := none
  info : List String := []
deriving DecidableEq, Repr

/-- The root error of the taxonomy, from src errors index: name, message,
code, details, timestamp and the retryable flag. -/
structure MCPError where
  name : String
  message : String
  code : String
  details : Details
  timestamp : Int
  retryable : Bool
deriving DecidableEq, Repr

/-- Constructor body of MCPError: sets name to the literal MCPError string,
stamps the creation time, and defaults retryable to true unless the details
object carries an explicit retryable field (details.retryable ?? true). -/
def mkMCPError (message code : String) (details : Details) (now : Int) : MCPError :=
  { name := "MCPError", message := message, code := code, details := details,
    timestamp := now, retryable := details.retryableField.getD true }

/-- ToolNotFoundError subclass: code TOOL_NOT_FOUND, details carry the tool
name and retryable set to false. -/
def ToolNotFoundError (toolName : String) (now : Int) : MCPError :=
  mkMCPError ("Tool not found: " ++ toolName) "TOOL_NOT_FOUND"
    { retryableField := some false, info := [toolName] } now

/-- ValidationError subclass: code VALIDATION_ERROR, details carry the
validator issues and retryable set to false. -/
def ValidationError (errors : List String) (now : Int) : MCPError :=
  mkMCPError "Validation failed" "VALIDATION_ERROR"
    { retryableField := some false, info := errors } now

/-- PermissionError subclass: code PERMISSION_DENIED, details carry the
missing permission and retryable set to false. -/
def PermissionError (permission : String) (now : Int) : MCPError :=
  mkMCPError "Permission denied" "PERMISSION_DENIED"
    { retryableField := some false, info := [permission] } now

/-- TimeoutError subclass: code TIMEOUT, details carry the timeout budget and
no retryable field, so the flag defaults to true. -/
def TimeoutError (timeout : Int) (now : Int) : MCPError :=
  mkMCPError ("Operation timed out after " ++ toString timeout ++ "ms") "TIMEOUT"
    { retryableField := none, info := [toString timeout] } now

/-- Shape of the object returned by MCPError.toJSON: exactly the five fields
name, message, code, details and timestamp. -/
structure ErrorJSON where
  name : String
  message : String
  code : String
  details : Details
  timestamp : Int
deriving DecidableEq, Repr

/-- Serialization method of MCPError, translated from toJSON in the errors
module: it copies name, message, code, details and timestamp. -/
def MCPError.toJSON (e : MCPError) : ErrorJSON :=
  { name := e.name, message := e.message, code := e.code,
    details := e.details, timestamp := e.timestamp }

/-- Per-call execution context: requestId, userId (rate-limit partition key
when present), granted permissions and the maxRetries override. -/
structure Ctx where
  requestId : Option String := none
  userId : Option String := none
  permissions : List String := []
  maxRetries : Option Nat := none
deriving DecidableEq, Repr

/-- Rate limit policy of a tool, with the field names of the source:
max accepted calls per window, window length in milliseconds. -/
structure RateLimit where
  max : Int
  window : Int
deriving DecidableEq, Repr

/-- A handler takes arguments and a context and produces a result or throws
an error of the taxonomy. -/
def Handler (α : Type) : Type :=
  String → Ctx → Except MCPError α

/-- A registered tool as seen by the registry: descriptive metadata, the
policy fields, and the handler function. -/
structure Tool (α : Type) where
  name : String
  version : Option String := none
  description : String := ""
  deprecated : Option Bool := none
  schema : String := ""
  permissions : List String := []
  rateLimit : Option RateLimit := none
  handler : Handler α

/-- A middleware is a transform from an inner handler and the tool definition
to an outer handler, as in the middleware module. -/
def Middleware (α : Type) : Type :=
  Handler α → Tool α → Handler α

/-- Registry state: the byName map (tools), the byNameVersion map (versions)
and the ordered middleware list, as initialised by the constructor. -/
structure ToolRegistry (α : Type) where
  tools : List (String × Tool α) := []
  versions : List (String × Tool α) := []
  middleware : List (Middleware α) := []

/-- Fresh registry, as built by the ToolRegistry constructor: empty tools
map, empty versions map, empty middleware list. -/
def emptyRegistry {α : Type} : ToolRegistry α :=
  { tools := [], versions := [], middleware := [] }

/-- ToolRegistry.register: insert or overwrite the byName entry and set the
byNameVersion entry under the key name at version (version defaulting to
1.0.0 when absent); the logging side effect is outside the model. -/
def ToolRegistry.register {α : Type} (reg : ToolRegistry α) (tool : Tool α) : ToolRegistry α :=
  let version := tool.version.getD "1.0.0"
  { reg with
    tools := setAssoc reg.tools tool.name tool,
    versions := setAssoc reg.versions (tool.name ++ "@" ++ version) tool }

/-- ToolRegistry.use: push the middleware onto the end of the chain. -/
def ToolRegistry.use {α : Type} (reg : ToolRegistry α) (mw : Middleware α) : ToolRegistry α :=
  { reg with middleware := reg.middleware ++ [mw] }

/-- ToolRegistry.execute: resolve the tool by name, throwing ToolNotFoundError
when absent; otherwise fold the middleware chain around the raw handler by
iterating over this.middleware.reverse() and invoke the composed handler.
Array.prototype.reverse mutates the array in place, so the registry returned
from the call stores the reversed middleware list; the metrics side effects
are outside the model. -/
def ToolRegistry.execute {α : Type} (reg : ToolRegistry α) (toolName : String)
    (args : String) (context : Ctx) (now : Int) :
    Except MCPError α × ToolRegistry α :=
  match lookupAssoc reg.tools toolName with
  | none => (Except.error (ToolNotFoundError toolName now), reg)
  | some tool =>
    let mws := reg.middleware.reverse
    let handler := mws.foldl (fun h mw => mw h tool) tool.handler
    (handler args context, { reg with middleware := mws })

/-- Summary record returned by getTools for each active tool: exactly the
fields name, version, description, deprecated and schema. -/
structure ToolSummary where
  name : String
  version : Option String
  description : String
  deprecated : Bool
  schema : String
deriving DecidableEq, Repr

/-- Projection of one tool into its getTools summary, from the mapping
function inside getTools (deprecated falls back to false). -/
def toolSummary {α : Type} (tool : Tool α) : ToolSummary :=
  { name := tool.name, version := tool.version, description := tool.description,
    deprecated := tool.deprecated.getD false, schema := tool.schema }

/-- ToolRegistry.getTools: one summary per entry of the byName map, in map
order. -/
def ToolRegistry.getTools {α : Type} (reg : ToolRegistry α) : List ToolSummary :=
  reg.tools.map (fun p => toolSummary p.2)

/-- Replace the handler of every registered tool; used to state that parts of
the registry behaviour are independent of the handler functions. -/
def mapHandlers {α : Type} (f : Handler α) (reg : ToolRegistry α) : ToolRegistry α :=
  { reg with tools := reg.tools.map (fun p => (p.1, { p.2 with handler := f })) }

/-- Apply a sequence of register operations to a registry, left to right. -/
def applyRegisters {α : Type} (ops : List (Tool α)) (reg : ToolRegistry α) : ToolRegistry α :=
  ops.foldl (fun r t => r.register t) reg

/-- The documented registry invariant: every byName entry has a corresponding
byNameVersion entry under the key name at the version of the stored tool. -/
def registryInvariant {α : Type} (reg : ToolRegistry α) : Prop :=
  ∀ name tool, lookupAssoc reg.tools name = some tool →
    (lookupAssoc reg.versions (name ++ "@" ++ tool.version.getD "1.0.0")).isSome = true

/-- Per-key window state of the rate limit middleware: the limits map from
partition key to the timestamps of recent accepted calls. -/
def Limits : Type := List (String × List Int)

/-- Body of the handler returned by withRateLimit, for one invocation at time
now, with the limits map made explicit: delegate when the tool has no
rateLimit policy; otherwise prune the window of the partition key, throw the
RATE_LIMIT error when the surviving count has reached max (leaving the map
untouched), and otherwise record the timestamp and delegate. -/
def withRateLimitCall {α : Type} (rl : Option RateLimit) (limits : Limits)
    (context : Ctx) (now : Int) (inner : Except MCPError α) :
    Except MCPError α × Limits :=
  match rl with
  | none => (inner, limits)
  | some policy =>
    let key := context.userId.getD "anonymous"
    let windowStart := now - policy.window
    let requests := (lookupAssoc limits key).getD []
    let recentRequests := requests.filter (fun time => windowStart < time)
    if policy.max ≤ (recentRequests.length : Int) then
      (Except.error (mkMCPError "Rate limit exceeded" "RATE_LIMIT" {} now), limits)
    else
      (inner, setAssoc limits key (recentRequests ++ [now]))

/-- One call to ToolRegistry.execute with withRateLimit in the middleware
chain: because execute folds the chain afresh on every call, the transform
withRateLimit(handler, tool) runs again and its const limits = new Map()
creates an empty map for the call, so the check always starts from empty
state. -/
def executeWithRateLimit {α : Type} (tool : Tool α) (args : String)
    (context : Ctx) (now : Int) : Except MCPError α :=
  (withRateLimitCall tool.rateLimit [] context now (tool.handler args context)).1

/-- Placeholder for the undefined value of lastError in withRetry before the
first attempt; unreachable because the retry loop always runs at least once
(the loop bound maxRetries is a natural number, so 0 ≤ maxRetries). -/
def undefinedError : MCPError :=
  mkMCPError "undefined" "UNDEFINED" {} 0

/-- Loop body of withRetry: attempt index i, remaining iteration budget as
fuel, and the last caught error threaded through.  Each iteration invokes the
inner handler; on success it returns immediately, on failure it records the
error and, when i is below maxRetries and the retryable flag of the error is
not false, sleeps 2 to the power i seconds (the delays are collected in the
third component; nothing else in the loop is guarded by that condition).
Returns the result, the number of handler invocations, and the backoff delays
in milliseconds. -/
def retryGo {α : Type} (handler : Nat → Except MCPError α) (maxRetries : Nat)
    (last : MCPError) (i : Nat) : Nat → Except MCPError α × Nat × List Nat
  | 0 => (Except.error last, 0, [])
  | fuel + 1 =>
    match handler i with
    | Except.ok v => (Except.ok v, 1, [])
    | Except.error e =>
      let rest := retryGo handler maxRetries e (i + 1) fuel
      let delays := if i < maxRetries ∧ e.retryable = true
        then (2 ^ i * 1000) :: rest.2.2 else rest.2.2
      (rest.1, rest.2.1 + 1, delays)

/-- withRetry for one application of the wrapped handler to fixed arguments:
maxRetries is context.maxRetries || 3, where the JS || also replaces an
explicit 0 (a falsy value) by the default 3; the loop runs for attempt
indices 0 through maxRetries.  The inner handler is abstracted as a function
of the attempt index; the result carries the invocation count and the backoff
delays next to the outcome. -/
def withRetry {α : Type} (handler : Nat → Except MCPError α) (context : Ctx) :
    Except MCPError α × Nat × List Nat :=
  let maxRetries := match context.maxRetries with
    | none => 3
    | some n => if n = 0 then 3 else n
  retryGo handler maxRetries undefinedError 0 (maxRetries + 1)

/-- Content block of the normalized response envelope. -/
structure ContentBlock where
  type : String
  text : String
deriving DecidableEq, Repr

/-- Metadata of the normalized response envelope. -/
structure ResponseMetadata where
  version : String
deriving DecidableEq, Repr

/-- Normalized response envelope produced by the BaseTool handler on
success. -/
structure ToolResponse where
  content : List ContentBlock
  metadata : ResponseMetadata
deriving DecidableEq, Repr

/-- BaseTool as configured by its constructor.  The schema is a validator
from raw arguments to a validated value or a list of issue strings (a zod
parse); execute is the pure business function implemented by subclasses,
modelled with string results so that response shaping uses the text as is. -/
structure BaseTool where
  name : String := ""
  version : String := "1.0.0"
  description : String := ""
  deprecated : Bool := false
  schema : Option (String → Except (List String) String) := none
  permissions : List String := []
  rateLimit : Option RateLimit := none
  timeout : Int := 30000
  execute : String → Ctx → Except MCPError String

/-- BaseTool.checkPermissions: the base implementation body is empty (the
source comment says Override in subclasses), so it performs no verification
and never fails; no tool in the repository overrides it. -/
def BaseTool.checkPermissions (_tool : BaseTool) (_context : Ctx) : Except MCPError Unit :=
  Except.ok ()

/-- Response shaping of the execution envelope: wrap a successful result into
the content and metadata envelope, propagate a failure unchanged (the catch
clause rethrows every error that is not a zod error). -/
def shapeResult (tool : BaseTool) (r : Except MCPError String) : Except MCPError ToolResponse :=
  match r with
  | Except.ok result =>
    Except.ok { content := [{ type := "text", text := result }],
                metadata := { version := tool.version } }
  | Except.error e => Except.error e

/-- The handler getter of BaseTool, for one invocation: validate the
arguments when a schema is present, converting a validator failure into an
MCPError with code VALIDATION_ERROR whose details are the raw issue list (no
retryable field); run checkPermissions when the permission list is non-empty;
then run execute (the timeout race only matters for real-time behaviour and
on the non-timeout path yields the execute outcome) and shape the result.
The second component counts how many times execute was invoked. -/
def BaseTool.handler (tool : BaseTool) (args : String) (context : Ctx) (now : Int) :
    Except MCPError ToolResponse × Nat :=
  match (match tool.schema with
         | some sch => sch args
         | none => Except.ok args) with
  | Except.error issues =>
    (Except.error (mkMCPError "Validation failed" "VALIDATION_ERROR"
      { retryableField := none, info := issues } now), 0)
  | Except.ok validated =>
    match (if 0 < tool.permissions.length
           then tool.checkPermissions context else Except.ok ()) with
    | Except.error e => (Except.error e, 0)
    | Except.ok _ => (shapeResult tool (tool.execute validated context), 1)

/-- Tracing middleware used as a test probe: tags the result list with A so
that the position of the tag shows the wrapping depth (the outermost wrapper
contributes the head of the list). -/
def mwA : Middleware (List String) := fun h _tool => fun args context =>
  match h args context with
  | Except.ok trace => Except.ok ("A" :: trace)
  | Except.error e => Except.error e

/-- Tracing middleware used as a test probe: tags the result list with B. -/
def mwB : Middleware (List String) := fun h _tool => fun args context =>
  match h args context with
  | Except.ok trace => Except.ok ("B" :: trace)
  | Except.error e => Except.error e

/-- Tool whose raw handler returns an empty trace, so the composed result
shows exactly the middleware tags from outermost to innermost. -/
def traceTool : Tool (List String) :=
  { name := "traced", handler := fun _ _ => Except.ok [] }

/-- Registry with the trace tool and the middlewares registered in the order
A then B, as built by register and chained use calls. -/
def regTrace : ToolRegistry (List String) :=
  ((emptyRegistry.register traceTool).use mwA).use mwB

/-- Tool declaring the rate limit policy of the spec example: at most 2 calls
per 1000 millisecond window. -/
def rlTool : Tool String :=
  { name := "limited", rateLimit := some { max := 2, window := 1000 },
    handler := fun _ _ => Except.ok "r" }

/-- One invocation of the withRateLimit handler body for the rate limited
tool with the limits map threaded explicitly, used to document what the
middleware logic alone produces when its state persists between calls. -/
def rlCall (limits : Limits) (now : Int) : Except MCPError String × Limits :=
  withRateLimitCall rlTool.rateLimit limits {} now (Except.ok "r")

/-- An error whose details carry no retryable field, so the flag defaults to
true: a retryable failure. -/
def errR : MCPError := mkMCPError "boom" "EXPLODED" {} 0

/-- An error whose details set retryable to false: a non-retryable failure. -/
def errNR : MCPError :=
  mkMCPError "boom" "EXPLODED" { retryableField := some false } 0

/-- Validator that accepts only the literal argument ok, mirroring a zod
schema that rejects everything else with one issue. -/
def vSchema : String → Except (List String) String :=
  fun s => if s = "ok" then Except.ok s else Except.error ["Expected ok"]

/-- BaseTool with a schema, used to exercise the validation failure path. -/
def vTool : BaseTool :=
  { name := "validated", schema := some vSchema,
    execute := fun _ _ => Except.ok "ran" }

/-- BaseTool with a non-empty permission list and no schema, used to exercise
the permission check path. -/
def permTool : BaseTool :=
  { name := "secured", permissions := ["data:read"],
    execute := fun _ _ => Except.ok "done" }

/-- First registration of the tool named a at version 1.0.0. -/
def toolA1 : Tool String :=
  { name := "a", version := some "1.0.0", description := "first",
    handler := fun _ _ => Except.ok "" }

/-- Second registration of the tool named a at the same version 1.0.0 but
with a different definition body. -/
def toolA2 : Tool String :=
  { name := "a", version := some "1.0.0", description := "second",
    handler := fun _ _ => Except.ok "" }

/-- Unrelated tool named b, used to extend a registration sequence. -/
def toolB : Tool String :=
  { name := "b", version := some "2.0.0", description := "other",
    handler := fun _ _ => Except.ok "" }

/-- Sample registry with a single registered tool, used by witnesses. -/
def sampleRegistry : ToolRegistry String :=
  emptyRegistry.register toolA1

/-- Looking up the key just set yields the new value. -/
theorem lookupAssoc_setAssoc_self {β : Type} (m : List (String × β)) (k : String) (v : β) :
    lookupAssoc (setAssoc m k v) k = some v := by
  induction m with
  | nil => simp [setAssoc, lookupAssoc]
  | cons p rest ih =>
    by_cases h : p.1 = k
    · simp [setAssoc, h, lookupAssoc]
    · simp [setAssoc, h, lookupAssoc, ih]

/-- Looking up a different key is unaffected by setAssoc. -/
theorem lookupAssoc_setAssoc_ne {β : Type} (m : List (String × β)) (k k₂ : String) (v : β)
    (h : k₂ ≠ k) : lookupAssoc (setAssoc m k v) k₂ = lookupAssoc m k₂ := by
  have hk : ¬ (k = k₂) := fun e => h e.symm
  induction m with
  | nil => simp [setAssoc, lookupAssoc, hk]
  | cons p rest ih =>
    by_cases hp : p.1 = k
    · simp [setAssoc, hp, lookupAssoc, hk]
    · simp [setAssoc, hp, lookupAssoc, ih]

/-- A key bound in the map stays bound after any setAssoc. -/
theorem isSome_lookupAssoc_setAssoc {β : Type} (m : List (String × β)) (k k₂ : String) (v : β)
    (h : (lookupAssoc m k₂).isSome = true) :
    (lookupAssoc (setAssoc m k v) k₂).isSome = true := by
  by_cases hk : k₂ = k
  · subst hk
    rw [lookupAssoc_setAssoc_self]
    rfl
  · rw [lookupAssoc_setAssoc_ne m k k₂ v hk]
    exact h

/-- Lookup commutes with a value-only map over the association list. -/
theorem lookupAssoc_map {β γ : Type} (g : β → γ) (m : List (String × β)) (k : String) :
    lookupAssoc (m.map (fun p => (p.1, g p.2))) k = (lookupAssoc m k).map g := by
  induction m with
  | nil => rfl
  | cons p rest ih =>
    by_cases h : p.1 = k
    · simp [lookupAssoc, h]
    · simp [lookupAssoc, h, ih]

/-- Indexing commutes with List.map. -/
theorem list_get?_map {β γ : Type} (g : β → γ) (l : List β) (i : Nat) :
    (l.map g).get? i = (l.get? i).map g := by
  induction l generalizing i with
  | nil => cases i <;> rfl
  | cons x xs ih => cases i with
    | zero => rfl
    | succ n => exact ih n

/-- The tool summary is independent of the handler field. -/
theorem toolSummary_handler_independent {α : Type} (t : Tool α) (f : Handler α) :
    toolSummary { t with handler := f } = toolSummary t := rfl

/-- One register step preserves the byName to byNameVersion correspondence. -/
theorem register_preserves_invariant {α : Type} (reg : ToolRegistry α) (t : Tool α)
    (h : registryInvariant reg) : registryInvariant (reg.register t) := by
  intro name tool hl
  simp only [ToolRegistry.register] at hl ⊢
  by_cases hn : name = t.name
  · subst hn
    rw [lookupAssoc_setAssoc_self] at hl
    have ht : t = tool := by injection hl
    subst ht
    rw [lookupAssoc_setAssoc_self]
    rfl
  · rw [lookupAssoc_setAssoc_ne reg.tools t.name name t hn] at hl
    exact isSome_lookupAssoc_setAssoc _ _ _ _ (h name tool hl)

/-- The empty registry satisfies the correspondence invariant vacuously. -/
theorem registryInvariant_empty {α : Type} :
    registryInvariant (emptyRegistry : ToolRegistry α) := by
  intro name tool hl
  simp [emptyRegistry, lookupAssoc] at hl

/-- Any sequence of register steps preserves the correspondence invariant. -/
theorem applyRegisters_preserves_invariant {α : Type} (ops : List (Tool α))
    (reg : ToolRegistry α) (h : registryInvariant reg) :
    registryInvariant (applyRegisters ops reg) := by
  induction ops generalizing reg with
  | nil => exact h
  | cons t rest ih => exact ih _ (register_preserves_invariant reg t h)

/-- A key bound in byNameVersion stays bound after any sequence of register
steps. -/
theorem versions_isSome_applyRegisters {α : Type} (ops : List (Tool α))
    (reg : ToolRegistry α) (k : String)
    (h : (lookupAssoc reg.versions k).isSome = true) :
    (lookupAssoc (applyRegisters ops reg).versions k).isSome = true := by
  induction ops generalizing reg with
  | nil => exact h
  | cons t rest ih => exact ih _ (isSome_lookupAssoc_setAssoc _ _ _ _ h)


/-- Claim C1 (code bug evaluation): with middlewares registered in the order
A then B, the first execute call composes A as the outermost wrapper, but the
second execute call on the returned registry state composes B as the
outermost wrapper, because Array.prototype.reverse mutates this.middleware in
place; the wrapping order is therefore not the same on every execute call. -/
theorem middleware_order_flips_on_second_execute :
    (regTrace.execute "traced" "" {} 0).1 = Except.ok ["A", "B"]
    ∧ ((regTrace.execute "traced" "" {} 0).2.execute "traced" "" {} 0).1
        = Except.ok ["B", "A"] :=
  ⟨rfl, rfl⟩

/-- Claim C2 (code bug evaluation): for the tool with rate limit max 2 per
1000 ms window, three calls through execute within the window for the same
partition key all succeed, because execute folds the middleware chain afresh
on every call and withRateLimit therefore starts from an empty limits map
each time; the accepted-call window does not persist between execute calls
and no RateLimitExceeded failure is produced. -/
theorem rate_limit_window_reset_every_execute :
    executeWithRateLimit rlTool "" {} 0 = Except.ok "r"
    ∧ executeWithRateLimit rlTool "" {} 100 = Except.ok "r"
    ∧ executeWithRateLimit rlTool "" {} 200 = Except.ok "r" :=
  ⟨rfl, rfl, rfl⟩

/-- Documentation of the intended behaviour: when the limits map of the rate
limit middleware body is threaded from call to call, the sequence of the spec
appears, success, success, RateLimitExceeded, and a call after the window
elapses succeeds again. -/
theorem rate_limit_sequence_with_persistent_state :
    (rlCall [] 0).1 = Except.ok "r"
    ∧ (rlCall (rlCall [] 0).2 100).1 = Except.ok "r"
    ∧ (rlCall (rlCall (rlCall [] 0).2 100).2 200).1
        = Except.error (mkMCPError "Rate limit exceeded" "RATE_LIMIT" {} 200)
    ∧ (rlCall (rlCall (rlCall (rlCall [] 0).2 100).2 200).2 1300).1 = Except.ok "r" :=
  ⟨rfl, rfl, rfl, rfl⟩

/-- Claim C3 (code bug evaluation): with maxRetries 2 and a handler that
always fails, the inner handler is invoked 3 times when the error is
retryable, matching the claim, but it is also invoked 3 times, not once, when
the error carries retryable false, because the retryable check in withRetry
only skips the backoff sleep and never exits the loop; the delays list shows
the sleeps are indeed suppressed for the non-retryable error. -/
theorem retry_ignores_nonretryable_flag :
    (withRetry (α := String) (fun _ => Except.error errR) { maxRetries := some 2 }).2.1 = 3
    ∧ (withRetry (α := String) (fun _ => Except.error errR) { maxRetries := some 2 }).1
        = Except.error errR
    ∧ (withRetry (α := String) (fun _ => Except.error errR) { maxRetries := some 2 }).2.2
        = [1000, 2000]
    ∧ (withRetry (α := String) (fun _ => Except.error errNR) { maxRetries := some 2 }).2.1 = 3
    ∧ (withRetry (α := String) (fun _ => Except.error errNR) { maxRetries := some 2 }).1
        = Except.error errNR
    ∧ (withRetry (α := String) (fun _ => Except.error errNR) { maxRetries := some 2 }).2.2
        = [] :=
  ⟨rfl, rfl, rfl, rfl, rfl, rfl⟩

/-- Claim C4 (code bug evaluation): when the arguments fail schema
validation, the raw execute function is never invoked (count 0), and the
invocation fails with the MCPError of code VALIDATION_ERROR built directly in
the BaseTool handler; its details are the raw issue list with no retryable
field, so its retryable flag defaults to true, while the ValidationError
class of the error taxonomy, which the handler does not use, would have
carried retryable false. -/
theorem validation_failure_is_retryable_mcp_error :
    (BaseTool.handler vTool "bad" {} 0).2 = 0
    ∧ (BaseTool.handler vTool "bad" {} 0).1
        = Except.error (mkMCPError "Validation failed" "VALIDATION_ERROR"
            { retryableField := none, info := ["Expected ok"] } 0)
    ∧ (mkMCPError "Validation failed" "VALIDATION_ERROR"
        { retryableField := none, info := ["Expected ok"] } 0).retryable = true
    ∧ (ValidationError ["Expected ok"] 0).retryable = false :=
  ⟨rfl, rfl, rfl, rfl⟩

/-- Claim C5 counterexample: a tool with a non-empty permission set, invoked
with a context granting no permissions at all, still succeeds and its raw
execute function is invoked exactly once, contradicting the claim that such a
call fails with a PermissionError without invoking execute. -/
theorem permission_missing_still_executes :
    BaseTool.handler permTool "x" {} 0
      = (Except.ok { content := [{ type := "text", text := "done" }],
                     metadata := { version := "1.0.0" } }, 1)
    ∧ (∃ p, p ∈ permTool.permissions ∧ p ∉ ({} : Ctx).permissions) :=
  ⟨rfl, ⟨"data:read", by decide, by decide⟩⟩

/-- Claim C5 (amended): when the permission set is non-empty the handler does
invoke checkPermissions, but the base implementation is an empty subclass
hook that performs no verification, so even when a required permission is
absent from the granted set the invocation proceeds to the raw execute
function exactly once and its shaped result is returned; no PermissionError
is produced. -/
theorem base_permission_check_is_noop (tool : BaseTool) (args : String) (context : Ctx)
    (now : Int) (hschema : tool.schema = none)
    (hperm : 0 < tool.permissions.length)
    (_hmiss : ∃ p, p ∈ tool.permissions ∧ p ∉ context.permissions) :
    BaseTool.handler tool args context now
      = (shapeResult tool (tool.execute args context), 1) := by
  simp [BaseTool.handler, hschema, BaseTool.checkPermissions, hperm]

/-- Witness for the amended claim C5 at the concrete secured tool and an
empty context. -/
theorem base_permission_check_is_noop_witness :
    (permTool.schema = none ∧ 0 < permTool.permissions.length
      ∧ (∃ p, p ∈ permTool.permissions ∧ p ∉ ({} : Ctx).permissions))
    ∧ BaseTool.handler permTool "x" {} 0
        = (shapeResult permTool (permTool.execute "x" {}), 1) :=
  ⟨⟨rfl, by decide, ⟨"data:read", by decide, by decide⟩⟩,
   base_permission_check_is_noop permTool "x" {} 0 rfl (by decide)
     ⟨"data:read", by decide, by decide⟩⟩

/-- Claim C6: executing an unregistered tool name fails with the
ToolNotFoundError, whose code is TOOL_NOT_FOUND and whose retryable flag is
false; the registry state is returned untouched (the middleware array is not
even reversed), and the outcome is independent of the middleware chain and of
every handler, so no handler or middleware is invoked. -/
theorem execute_unregistered_tool_not_found (α : Type) (reg : ToolRegistry α)
    (toolName args : String) (context : Ctx) (now : Int)
    (mws : List (Middleware α)) (f : Handler α)
    (h : lookupAssoc reg.tools toolName = none) :
    (reg.execute toolName args context now).1
        = Except.error (ToolNotFoundError toolName now)
    ∧ (ToolNotFoundError toolName now).code = "TOOL_NOT_FOUND"
    ∧ (ToolNotFoundError toolName now).retryable = false
    ∧ (reg.execute toolName args context now).2 = reg
    ∧ (({ reg with middleware := mws } : ToolRegistry α).execute toolName args context now).1
        = Except.error (ToolNotFoundError toolName now)
    ∧ ((mapHandlers f reg).execute toolName args context now).1
        = Except.error (ToolNotFoundError toolName now) := by
  refine ⟨?_, rfl, rfl, ?_, ?_, ?_⟩
  · simp [ToolRegistry.execute, h]
  · simp [ToolRegistry.execute, h]
  · simp [ToolRegistry.execute, h]
  · have hm : lookupAssoc (mapHandlers f reg).tools toolName = none := by
      have hmap := lookupAssoc_map (fun t : Tool α => { t with handler := f })
        reg.tools toolName
      exact hmap.trans (by simp [h])
    simp [ToolRegistry.execute, hm]

/-- Witness for claim C6 at the empty registry and the name missing. -/
theorem execute_unregistered_witness :
    lookupAssoc (emptyRegistry : ToolRegistry String).tools "missing" = none
    ∧ (((emptyRegistry : ToolRegistry String).execute "missing" "" {} 0).1
          = Except.error (ToolNotFoundError "missing" 0)
      ∧ (ToolNotFoundError "missing" 0).code = "TOOL_NOT_FOUND"
      ∧ (ToolNotFoundError "missing" 0).retryable = false
      ∧ ((emptyRegistry : ToolRegistry String).execute "missing" "" {} 0).2 = emptyRegistry
      ∧ (({ (emptyRegistry : ToolRegistry String) with
              middleware := [] } : ToolRegistry String).execute "missing" "" {} 0).1
          = Except.error (ToolNotFoundError "missing" 0)
      ∧ ((mapHandlers (fun _ _ => Except.ok "") (emptyRegistry : ToolRegistry String)).execute
            "missing" "" {} 0).1
          = Except.error (ToolNotFoundError "missing" 0)) :=
  ⟨rfl, execute_unregistered_tool_not_found String emptyRegistry "missing" "" {} 0 []
      (fun _ _ => Except.ok "") rfl⟩

/-- Claim C7: getTools returns one summary per active tool; the summary at
each index consists of exactly the fields name, version, description,
deprecated (falling back to false) and schema of the corresponding tool, and
the returned list is unchanged when every handler of the registry is
replaced, so the handler is never exposed. -/
theorem getTools_summary_fields (α : Type) (reg : ToolRegistry α) (i : Nat) (f : Handler α) :
    reg.getTools.length = reg.tools.length
    ∧ reg.getTools.get? i = (reg.tools.get? i).map (fun p =>
        { name := p.2.name, version := p.2.version, description := p.2.description,
          deprecated := p.2.deprecated.getD false, schema := p.2.schema })
    ∧ (mapHandlers f reg).getTools = reg.getTools := by
  refine ⟨by simp [ToolRegistry.getTools], ?_, ?_⟩
  · rw [ToolRegistry.getTools, list_get?_map]
    rfl
  · rw [ToolRegistry.getTools, ToolRegistry.getTools, mapHandlers, List.map_map]
    rfl

/-- Claim C8 counterexample: registering a second tool under the same name
and the same version overwrites the existing byNameVersion binding, so the
mapping does not only gain entries; the binding of the key a at version 1.0.0
changes from the first definition to the second. -/
theorem byNameVersion_overwritten_on_same_version :
    ((lookupAssoc ((emptyRegistry.register toolA1).register toolA2).versions
        "a@1.0.0").map Tool.description = some "second")
    ∧ ((lookupAssoc (emptyRegistry.register toolA1).versions
        "a@1.0.0").map Tool.description = some "first") :=
  ⟨rfl, rfl⟩

/-- Claim C8 (amended): for every sequence of register operations from the
empty registry, every byName entry has a corresponding byNameVersion entry
under its name at version key, and the key set of byNameVersion grows
monotonically, no key is ever removed by further register operations; strict
append-only of bindings fails because re-registering the same name and
version overwrites the stored definition. -/
theorem byNameVersion_correspondence_and_key_monotone (α : Type)
    (ops more : List (Tool α)) :
    registryInvariant (applyRegisters ops (emptyRegistry : ToolRegistry α))
    ∧ ∀ k, (lookupAssoc (applyRegisters ops (emptyRegistry : ToolRegistry α)).versions
          k).isSome = true →
        (lookupAssoc (applyRegisters (ops ++ more)
          (emptyRegistry : ToolRegistry α)).versions k).isSome = true := by
  constructor
  · exact applyRegisters_preserves_invariant ops _ registryInvariant_empty
  · intro k h
    have happ : applyRegisters (ops ++ more) (emptyRegistry : ToolRegistry α)
        = applyRegisters more (applyRegisters ops emptyRegistry) := by
      simp [applyRegisters, List.foldl_append]
    rw [happ]
    exact versions_isSome_applyRegisters more _ k h

/-- Witness for the amended claim C8 at a concrete registration sequence. -/
theorem byNameVersion_witness :
    (lookupAssoc (applyRegisters [toolA1] (emptyRegistry : ToolRegistry String)).versions
        ("a" ++ "@" ++ (toolA1.version.getD "1.0.0"))).isSome = true
    ∧ (lookupAssoc (applyRegisters ([toolA1] ++ [toolB])
        (emptyRegistry : ToolRegistry String)).versions "a@1.0.0").isSome = true :=
  ⟨(byNameVersion_correspondence_and_key_monotone String [toolA1] []).1 "a" toolA1 rfl,
   (byNameVersion_correspondence_and_key_monotone String [toolA1] [toolB]).2 "a@1.0.0" rfl⟩

/-- Claim C9: an explicit maxRetries of 0 in the context does not disable
retries; the JS default expression replaces every falsy value including 0 by
3, so a handler that always fails with a retryable error is invoked 4 times,
one initial attempt plus the 3 default retries, with the exponential backoff
sleeps of 1000, 2000 and 4000 ms between attempts, and the last error is
returned. -/
theorem retry_zero_maxRetries_uses_default (e : MCPError) (h : e.retryable = true) :
    (withRetry (α := String) (fun _ => Except.error e) { maxRetries := some 0 }).1
        = Except.error e
    ∧ (withRetry (α := String) (fun _ => Except.error e) { maxRetries := some 0 }).2.1 = 4
    ∧ (withRetry (α := String) (fun _ => Except.error e) { maxRetries := some 0 }).2.2
        = [1000, 2000, 4000] := by
  obtain ⟨nm, ms, cd, dt, ts, rb⟩ := e
  have hb : rb = true := h
  subst hb
  exact ⟨rfl, rfl, rfl⟩

/-- Witness for claim C9 at the concrete retryable error. -/
theorem retry_zero_maxRetries_witness :
    errR.retryable = true
    ∧ ((withRetry (α := String) (fun _ => Except.error errR) { maxRetries := some 0 }).1
          = Except.error errR
      ∧ (withRetry (α := String) (fun _ => Except.error errR) { maxRetries := some 0 }).2.1 = 4
      ∧ (withRetry (α := String) (fun _ => Except.error errR) { maxRetries := some 0 }).2.2
          = [1000, 2000, 4000]) :=
  ⟨rfl, retry_zero_maxRetries_uses_default errR rfl⟩

/-- Claim C10: serialization of every error of the taxonomy via toJSON yields
exactly the fields name, message, code, details and timestamp; the retryable
flag is omitted, so two errors differing only in their retryable flag
serialize identically. -/
theorem toJSON_omits_retryable (e : MCPError) (b : Bool) :
    MCPError.toJSON { e with retryable := b } = MCPError.toJSON e
    ∧ MCPError.toJSON e
        = ErrorJSON.mk e.name e.message e.code e.details e.timestamp :=
  ⟨rfl, rfl⟩
